import Mathlib

/-!
Verification of the flytezen Remote Execution Lifecycle Controller.

Shallow embedding of the core of `src/flytezen/cli/execute.py` and
`src/flytezen/cli/execution_utils.py`:

* version identity derivation (`git_info_to_workflow_version`),
* execution-context resolution for the `local` / `dev` / `prod` modes
  (the three contexts assembled in `main` and dispatched in
  `execute_workflow`),
* the completion monitor (`wait_for_workflow_completion`): the bounded-wait
  polling loop and the KeyboardInterrupt confirmation protocol.

Side-effecting calls (backend registration, submission, re-sync, terminate,
logging, sleeping, process exit) are modelled as events in a trace; the
backend's behaviour (wait outcomes, the re-synced phase, whether terminate
raises) is an explicit input, playing the role of the stub in the spec's
testable properties.  Python string operations used by the code
(`str.lower`, `str.strip`, `str.rstrip`, `str.split`) are modelled over
character lists with ASCII case semantics.
-/

namespace Flytezen

/-! ### Python string primitives -/

/-- ASCII model of Python `str.lower` on one character. -/
def pyLowerChar (c : Char) : Char :=
  if 65 ≤ c.toNat ∧ c.toNat ≤ 90 then Char.ofNat (c.toNat + 32) else c

/-- ASCII model of Python `str.lower`. -/
def pyLower (s : String) : String := ⟨s.data.map pyLowerChar⟩

/-- ASCII model of Python `str.isupper` on one character. -/
def pyIsUpperChar (c : Char) : Bool := decide (65 ≤ c.toNat ∧ c.toNat ≤ 90)

/-- The whitespace characters stripped by Python `str.strip()`. -/
def pyIsSpace (c : Char) : Bool :=
  c = ' ' || c = '\t' || c = '\n' || c = '\r' || c = '\x0b' || c = '\x0c'

/-- Python `str.strip()`: drop leading and trailing whitespace. -/
def pyStrip (s : String) : String :=
  ⟨((s.data.dropWhile pyIsSpace).reverse.dropWhile pyIsSpace).reverse⟩

/-- Python `str.rstrip(chars)`: drop trailing characters that belong to the
character SET `chars` (set semantics, not suffix removal). -/
def pyRstripSet (s : String) (chars : List Char) : String :=
  ⟨(s.data.reverse.dropWhile (fun c => chars.contains c)).reverse⟩

/-- Helper for Python `str.split(sep)` with a one-character separator. -/
def pySplitAux (sep : Char) : List Char → List Char → List (List Char)
  | [], acc => [acc.reverse]
  | c :: cs, acc =>
    if c = sep then acc.reverse :: pySplitAux sep cs []
    else pySplitAux sep cs (c :: acc)

/-- Python `str.split(sep)` with a one-character separator.  Always returns a
nonempty list, so indexing with `[-1]` is total. -/
def pySplit (sep : Char) (s : String) : List String :=
  (pySplitAux sep s.data []).map fun l => ⟨l⟩

/-! ### Version identity (`git_info_to_workflow_version`) -/

/-- `remote_url.split("/")[-1]`: the last slash-separated segment of the git
remote URL. -/
def lastUrlSegment (remoteUrl : String) : String :=
  (pySplit '/' remoteUrl).getLastD ""

/-- `remote_url.split("/")[-1].rstrip(".git")` from
`git_info_to_workflow_version`: the repository name as the code actually
derives it, with `rstrip` character-set semantics. -/
def deriveRepoName (remoteUrl : String) : String :=
  pyRstripSet (lastUrlSegment remoteUrl) ['.', 'g', 'i', 't']

/-- Modelled from the claim's contrasted alternative reading: remove only a
single literal `".git"` suffix when present (this is NOT what the code
does; it is the foil for the `rstrip` character-set semantics). -/
def stripLiteralDotGitSuffix (s : String) : String :=
  if s.data.reverse.take 4 = ['t', 'i', 'g', '.'] then
    ⟨(s.data.reverse.drop 4).reverse⟩
  else s

/-- `git_info_to_workflow_version` (cli package version), as a function of the
three source-control query results: the current branch, the short revision,
and the remote origin URL.  Returns `(repo_name.lower(), git_branch.lower(),
git_short_sha.lower())`. -/
def git_info_to_workflow_version (gitBranch gitShortSha remoteUrl : String) :
    String × String × String :=
  let repoName := deriveRepoName remoteUrl
  (pyLower repoName, pyLower gitBranch, pyLower gitShortSha)

/-- `git_info_to_workflow_version` as defined in the legacy top-level script
`execution_utils.py` at the repository root: the repository name is derived
from the remote URL exactly as in the cli variant, but the three components
are returned WITHOUT lower-casing
(`return repo_name, git_branch, git_short_sha`). -/
def legacy_git_info_to_workflow_version
    (gitBranch gitShortSha remoteUrl : String) : String × String × String :=
  let repoName := deriveRepoName remoteUrl
  (repoName, gitBranch, gitShortSha)

/-! ### Execution contexts (`ExecutionContext` and `main`) -/

/-- The provenance triple used for versioning (spec §3 VersionIdentity):
repo name, branch, short revision, as returned by
`git_info_to_workflow_version`. -/
structure VersionIdentity where
  repoName : String
  branch : String
  shortRevision : String
deriving DecidableEq

/-- The rendered identity `f"{repo_name}-{git_branch}-{git_short_sha}"`. -/
def renderVersionIdentity (v : VersionIdentity) : String :=
  v.repoName ++ "-" ++ v.branch ++ "-" ++ v.shortRevision

/-- The `ExecutionContext` dataclass of `execute.py` (defaults as in the
source; the dataclass default for `version` carries a random suffix and is
irrelevant here because `main` always overrides it). -/
structure ExecutionContext where
  mode : String := "dev"
  image : String := "ghcr.io/sciexp/flytezen"
  tag : String := "main"
  version : String := "flytezen-main-"
  package_path : String := "src"
  importPath : String := "flytezen.workflows"
  project : String := "flytesnacks"
  domain : String := "development"
  wait : Bool := true
deriving DecidableEq

/-- The `local` execution context assembled in `main`.  `rand` stands for the
3-character value of `random_alphanumeric_suffix()`. -/
def localExecutionContext (v : VersionIdentity) (rand : String) :
    ExecutionContext :=
  { mode := "local"
    image := ""
    tag := ""
    version := renderVersionIdentity v ++ "-local-" ++ rand }

/-- The `dev` execution context assembled in `main`: image is the configured
workflow image, tag is the git branch, version carries a `-dev-<rand>`
suffix. -/
def devExecutionContext (v : VersionIdentity) (workflowImage rand : String) :
    ExecutionContext :=
  { mode := "dev"
    image := workflowImage
    tag := v.branch
    version := renderVersionIdentity v ++ "-dev-" ++ rand }

/-- The `prod` execution context assembled in `main`: image is the configured
workflow image, tag is the git short revision, version is the bare rendered
identity (no random suffix). -/
def prodExecutionContext (v : VersionIdentity) (workflowImage : String) :
    ExecutionContext :=
  { mode := "prod"
    image := workflowImage
    tag := v.shortRevision
    version := renderVersionIdentity v }

/-- Mode-indexed selection among the three contexts registered by `main` in
the `execution_context` store (spec §4.2 `resolve`).  `none` for a mode
outside `{local, dev, prod}`. -/
def resolveExecutionContext (mode : String) (v : VersionIdentity)
    (workflowImage rand : String) : Option ExecutionContext :=
  if mode = "local" then some (localExecutionContext v rand)
  else if mode = "dev" then some (devExecutionContext v workflowImage rand)
  else if mode = "prod" then some (prodExecutionContext v workflowImage)
  else none

/-! ### Workflow execution phases (flytekit `WorkflowExecutionPhase`) -/

/-- The flytekit `WorkflowExecutionPhase` enumeration. -/
inductive WorkflowExecutionPhase where
  | undefined
  | queued
  | running
  | succeeding
  | succeeded
  | failing
  | failed
  | aborted
  | timedOut
  | aborting
deriving DecidableEq

/-- Terminal phases (flytekit `is_done`: `SUCCEEDED`, `FAILED`, `ABORTED`,
`TIMED_OUT`); no further transition occurs from these. -/
def WorkflowExecutionPhase.isTerminal : WorkflowExecutionPhase → Bool
  | .succeeded => true
  | .failed => true
  | .aborted => true
  | .timedOut => true
  | _ => false

/-! ### The polling loop of `wait_for_workflow_completion` -/

/-- The per-call wait bound: `timeout_duration = timedelta(seconds=3.0)`,
in seconds. -/
def timeoutDurationSeconds : Nat := 3

/-- Outcome of one `remote.wait(execution, timeout=timeout_duration)` call:
either a `FlyteTimeout`, or a completed execution carrying an optional
error. -/
inductive WaitOutcome where
  | timeout
  | completed (error : Option String)
deriving DecidableEq

/-- Observable steps taken by the polling loop. -/
inductive PollEvent where
  | waitCall (timeoutSeconds : Nat)
  | logCompleted
  | success
  | logError (e : String)
  | exitProcess (code : Nat)
  | resync
  | logPhase
  | sleep (seconds : Nat)
deriving DecidableEq

/-- The `while True` polling loop of `wait_for_workflow_completion`, run
against a backend stub scripted by a finite list of wait outcomes (one per
`remote.wait` call).  Per cycle: if the wait returns a completed execution,
the completion is logged; with no error the loop breaks (success), with an
error the error is logged and the process exits with status 1.  On
`FlyteTimeout` the status is explicitly re-synced (`remote.sync`), logged,
and the loop sleeps for `timeout_duration.total_seconds()` before repeating.
An exhausted script leaves the (unbounded) loop still pending, producing no
further events. -/
def pollLoop : List WaitOutcome → List PollEvent
  | [] => []
  | .completed none :: _ =>
    [.waitCall timeoutDurationSeconds, .logCompleted, .success]
  | .completed (some e) :: _ =>
    [.waitCall timeoutDurationSeconds, .logCompleted, .logError e,
     .exitProcess 1]
  | .timeout :: rest =>
    .waitCall timeoutDurationSeconds :: .resync :: .logPhase ::
      .sleep timeoutDurationSeconds :: pollLoop rest

/-- The four events of one timed-out polling cycle. -/
def timeoutCycle : List PollEvent :=
  [.waitCall timeoutDurationSeconds, .resync, .logPhase,
   .sleep timeoutDurationSeconds]

/-- Is the event a sleep (of any duration)? -/
def PollEvent.isSleep : PollEvent → Bool
  | .sleep _ => true
  | _ => false

/-- Is the event a process exit (with any code)? -/
def PollEvent.isExit : PollEvent → Bool
  | .exitProcess _ => true
  | _ => false

/-- Is the event an explicit re-synchronization? -/
def PollEvent.isResync : PollEvent → Bool
  | .resync => true
  | _ => false

/-! ### The KeyboardInterrupt protocol of `wait_for_workflow_completion` -/

/-- The confirmation bound: `input_queue.get(timeout=60)`. -/
def confirmationTimeoutSeconds : Nat := 60

/-- The confirmation response the interrupt handler acts on.  `arrival`
describes the user's input: `some (t, raw)` when a line `raw` is entered `t`
seconds after the prompt, `none` when no input ever arrives.  A response
arriving within the 60-second bound is normalized with
`response.strip().lower()`; otherwise `queue.Empty` is caught and the
response defaults to `"n"`. -/
def confirmationResponse (arrival : Option (Nat × String)) : String :=
  match arrival with
  | some (t, raw) =>
    if t < confirmationTimeoutSeconds then pyLower (pyStrip raw) else "n"
  | none => "n"

/-- `["y", "yes"]`: the responses the code treats as confirming
termination. -/
def affirmativeResponses : List String := ["y", "yes"]

/-- Environment of one interrupted run: whether a status sync had completed
before the interrupt, the user's confirmation input (arrival time and raw
text), the phase obtained by the final `remote.sync`, and whether the
`remote.terminate` call raises `FlyteSystemException`. -/
structure InterruptEnv where
  hadPriorSync : Bool
  responseArrival : Option (Nat × String)
  resyncedPhase : WorkflowExecutionPhase
  terminateRaises : Bool

/-- Observable steps taken by the interrupt handler. -/
inductive InterruptEvent where
  | logStatusAtInterrupt
  | logNoSyncYet
  | promptStarted
  | resyncFinal
  | terminateRequest
  | logTerminated
  | logAbandoned
  | logTerminateError
  | logAlreadyTerminal (phase : WorkflowExecutionPhase)
  | exitProcess
deriving DecidableEq

/-- The `try`/`except FlyteSystemException` block around the termination
decision: on an affirmative response `remote.terminate` is called; if it
raises, the exception is caught and the error logged; on a non-affirmative
response a warning is logged and the execution is left running. -/
def terminationTryBlock (affirmative : Bool) (terminateRaises : Bool) :
    List InterruptEvent :=
  if affirmative then
    if terminateRaises then [.terminateRequest, .logTerminateError]
    else [.terminateRequest, .logTerminated]
  else [.logAbandoned]

/-- The `except KeyboardInterrupt` handler of
`wait_for_workflow_completion`: log the last synced status (or its absence),
spawn the confirmation prompt worker and wait on its queue for at most 60
seconds, re-sync the execution one final time, then — only if the freshly
synced phase is exactly `RUNNING` — run the termination try-block on the
normalized response; any other phase is reported through the
already-in-terminal-state branch.  The handler always ends in `sys.exit()`. -/
def handleKeyboardInterrupt (env : InterruptEnv) : List InterruptEvent :=
  ((if env.hadPriorSync then [.logStatusAtInterrupt] else [.logNoSyncYet]) ++
    [.promptStarted, .resyncFinal] ++
    (if env.resyncedPhase = .running then
      terminationTryBlock
        (decide (confirmationResponse env.responseArrival
          ∈ affirmativeResponses))
        env.terminateRaises
    else [.logAlreadyTerminal env.resyncedPhase])) ++
    [.exitProcess]

/-! ### `execute_workflow` dispatch -/

/-- Observable steps taken by `execute_workflow`. -/
inductive ExecEvent where
  | printConfig
  | localInvoke (inputs : List (String × String))
  | logOutput
  | remoteInit (project : String) (domain : String)
  | imageConfigResolve (img : String)
  | devWarning
  | fastPackage (packagePath : String)
  | logUploadUrl
  | logRegistering
  | registerWorkflow (version : String)
  | submitExecution (version : String)
  | logSubmission
  | logConsoleUrl
  | monitorInvoked
  | logErrorInvalidMode (mode : String)
  | exitProcess (code : Nat)
deriving DecidableEq

/-- The registration/submission tail shared by the `dev` and `prod`
branches: `remote.register_workflow` then `remote.execute` at the context's
version (also used as execution name prefix), logging of the execution and
its console URL, and — when the context's wait flag is set — the call into
`wait_for_workflow_completion`. -/
def registerAndSubmit (ctx : ExecutionContext) : List ExecEvent :=
  [.registerWorkflow ctx.version, .submitExecution ctx.version,
   .logSubmission, .logConsoleUrl] ++
    (if ctx.wait then [.monitorInvoked] else [])

/-- The mode dispatch of `execute_workflow`, as the trace of its observable
steps.  `local` invokes the entity in-process with the configured inputs,
logs the output and returns.  Any other mode first constructs the
`FlyteRemote` client and resolves the image config; `dev` warns, fast-packages
the source tree and registers/submits with fast-serialization settings;
`prod` registers/submits against the already-built image; any other mode
value logs an error and exits with status 1 before any registration or
submission. -/
def execute_workflow (ctx : ExecutionContext)
    (inputs : List (String × String)) : List ExecEvent :=
  .printConfig ::
    (if ctx.mode = "local" then [.localInvoke inputs, .logOutput]
    else
      .remoteInit ctx.project ctx.domain ::
        .imageConfigResolve (ctx.image ++ ":" ++ ctx.tag) ::
        (if ctx.mode = "dev" then
          [.devWarning, .fastPackage ctx.package_path, .logUploadUrl] ++
            registerAndSubmit ctx
        else if ctx.mode = "prod" then
          .logRegistering :: registerAndSubmit ctx
        else [.logErrorInvalidMode ctx.mode, .exitProcess 1]))

/-- Is the event a `register_workflow` call? -/
def ExecEvent.isRegister : ExecEvent → Bool
  | .registerWorkflow _ => true
  | _ => false

/-- Is the event an execution submission? -/
def ExecEvent.isSubmit : ExecEvent → Bool
  | .submitExecution _ => true
  | _ => false

/-- Is the event a fast-package upload? -/
def ExecEvent.isFastPackage : ExecEvent → Bool
  | .fastPackage _ => true
  | _ => false

/-- Is the event the construction of the remote client? -/
def ExecEvent.isRemoteInit : ExecEvent → Bool
  | .remoteInit _ _ => true
  | _ => false

/-- Is the event the invocation of the completion monitor? -/
def ExecEvent.isMonitor : ExecEvent → Bool
  | .monitorInvoked => true
  | _ => false

/-! ### Helper lemmas -/

theorem charToNat_ofNat_valid (n : Nat) (h : n < 55296) :
    (Char.ofNat n).toNat = n := by
  unfold Char.ofNat
  rw [dif_pos (Or.inl h)]
  rfl

theorem pyIsUpperChar_pyLowerChar (c : Char) :
    pyIsUpperChar (pyLowerChar c) = false := by
  unfold pyIsUpperChar pyLowerChar
  by_cases h : 65 ≤ c.toNat ∧ c.toNat ≤ 90
  · rw [if_pos h, decide_eq_false_iff_not]
    rw [charToNat_ofNat_valid (c.toNat + 32) (by omega)]
    omega
  · rw [if_neg h, decide_eq_false_iff_not]
    exact h

theorem pyLower_no_upper (s : String) :
    (pyLower s).data.all (fun c => !(pyIsUpperChar c)) = true := by
  unfold pyLower
  rw [List.all_map, List.all_eq_true]
  intro c _
  simp [Function.comp, pyIsUpperChar_pyLowerChar c]

/-! ### Claims C5, C6, C10 -/

/-- C5: context resolution yields, for Local mode, empty image and tag and a
version `{repoName}-{branch}-{shortRevision}-local-<rand>`; for Dev mode the
base image, the branch as tag and a `-dev-<rand>` version suffix; for Prod
mode the base image, the short revision as tag and exactly the bare rendered
identity as version — so in every valid mode the version string has the
rendered VersionIdentity as a prefix, and in particular repo `acme`, branch
`main`, short revision `16323b3` in Prod gives version `acme-main-16323b3`
and tag `16323b3`. -/
theorem C5_resolve_mode_table (v : VersionIdentity) (img rand : String) :
    resolveExecutionContext "local" v img rand
        = some (localExecutionContext v rand) ∧
    resolveExecutionContext "dev" v img rand
        = some (devExecutionContext v img rand) ∧
    resolveExecutionContext "prod" v img rand
        = some (prodExecutionContext v img) ∧
    (localExecutionContext v rand).image = "" ∧
    (localExecutionContext v rand).tag = "" ∧
    (localExecutionContext v rand).version
        = renderVersionIdentity v ++ "-local-" ++ rand ∧
    (devExecutionContext v img rand).image = img ∧
    (devExecutionContext v img rand).tag = v.branch ∧
    (devExecutionContext v img rand).version
        = renderVersionIdentity v ++ "-dev-" ++ rand ∧
    (prodExecutionContext v img).image = img ∧
    (prodExecutionContext v img).tag = v.shortRevision ∧
    (prodExecutionContext v img).version = renderVersionIdentity v ∧
    (∃ s, (localExecutionContext v rand).version
        = renderVersionIdentity v ++ s) ∧
    (∃ s, (devExecutionContext v img rand).version
        = renderVersionIdentity v ++ s) ∧
    (∃ s, (prodExecutionContext v img).version
        = renderVersionIdentity v ++ s) ∧
    (prodExecutionContext ⟨"acme", "main", "16323b3"⟩ img).version
        = "acme-main-16323b3" ∧
    (prodExecutionContext ⟨"acme", "main", "16323b3"⟩ img).tag = "16323b3" := by
  refine ⟨rfl, ?_, ?_, rfl, rfl, rfl, rfl, rfl, rfl, rfl, rfl, rfl,
    ⟨"-local-" ++ rand, ?_⟩, ⟨"-dev-" ++ rand, ?_⟩,
    ⟨"", (String.append_empty _).symm⟩, rfl, rfl⟩
  · simp [resolveExecutionContext]
  · simp [resolveExecutionContext]
  · simp [localExecutionContext, String.append_assoc]
  · simp [devExecutionContext, String.append_assoc]

/-- C6 as amended: for every successful provenance query through the
packaged cli implementation (`src/flytezen/cli/execution_utils.py`), all
three components returned by `git_info_to_workflow_version` are lower-cased
before composition — the repo-name component equals the lowercase form of
the repository name derived from the remote URL, the branch and
short-revision components equal the lowercase forms of the corresponding
git query results, and consequently no returned component contains an
(ASCII) uppercase character — whereas the legacy top-level script variant
returns all three components verbatim, without lower-casing. -/
theorem C6_provenance_components_lowercased
    (gitBranch gitShortSha remoteUrl : String) :
    (git_info_to_workflow_version gitBranch gitShortSha remoteUrl).1
        = pyLower (deriveRepoName remoteUrl) ∧
    (git_info_to_workflow_version gitBranch gitShortSha remoteUrl).2.1
        = pyLower gitBranch ∧
    (git_info_to_workflow_version gitBranch gitShortSha remoteUrl).2.2
        = pyLower gitShortSha ∧
    (git_info_to_workflow_version gitBranch gitShortSha remoteUrl).1.data.all
        (fun c => !(pyIsUpperChar c)) = true ∧
    (git_info_to_workflow_version gitBranch gitShortSha remoteUrl).2.1.data.all
        (fun c => !(pyIsUpperChar c)) = true ∧
    (git_info_to_workflow_version gitBranch gitShortSha remoteUrl).2.2.data.all
        (fun c => !(pyIsUpperChar c)) = true ∧
    legacy_git_info_to_workflow_version gitBranch gitShortSha remoteUrl
        = (deriveRepoName remoteUrl, gitBranch, gitShortSha) :=
  ⟨rfl, rfl, rfl, pyLower_no_upper _, pyLower_no_upper _, pyLower_no_upper _,
    rfl⟩

/-- Counterexample to C6 as stated: the claim quantifies over every
successful provenance query and also covers the legacy top-level script's
`git_info_to_workflow_version`, but on the query results branch `Main`,
short revision `16323b3`, remote URL
`https://github.com/sciexp/flytezen`, that variant returns the branch
component `Main` verbatim, which differs from the lowercase form `main` of
the source-control query result and contains an uppercase character. -/
theorem C6_legacy_branch_not_lowercased :
    (legacy_git_info_to_workflow_version "Main" "16323b3"
        "https://github.com/sciexp/flytezen").2.1 = "Main" ∧
    pyLower "Main" = "main" ∧
    (legacy_git_info_to_workflow_version "Main" "16323b3"
        "https://github.com/sciexp/flytezen").2.1 ≠ pyLower "Main" ∧
    (legacy_git_info_to_workflow_version "Main" "16323b3"
        "https://github.com/sciexp/flytezen").2.1.data.all
      (fun c => !(pyIsUpperChar c)) = false := by
  refine ⟨rfl, by decide, by decide, by decide⟩

/-- C10: the repository name is computed as the last `/`-separated segment of
the git remote URL with trailing characters from the SET `{'.', 'g', 'i',
't'}` removed (Python `str.rstrip` character-set semantics), not by removing
a literal `".git"` suffix; consequently, a repository named `flytekit`
yields derived repo name `flytek` (both with and without a `.git` URL
suffix), whereas literal-suffix removal would keep `flytekit`. -/
theorem C10_reponame_rstrip_set_semantics :
    (∀ url, deriveRepoName url
        = pyRstripSet (lastUrlSegment url) ['.', 'g', 'i', 't']) ∧
    lastUrlSegment "https://github.com/flyteorg/flytekit" = "flytekit" ∧
    deriveRepoName "https://github.com/flyteorg/flytekit" = "flytek" ∧
    deriveRepoName "https://github.com/flyteorg/flytekit.git" = "flytek" ∧
    stripLiteralDotGitSuffix "flytekit" = "flytekit" ∧
    stripLiteralDotGitSuffix "flytekit.git" = "flytekit" ∧
    deriveRepoName "https://github.com/flyteorg/flytekit"
        ≠ stripLiteralDotGitSuffix
            (lastUrlSegment "https://github.com/flyteorg/flytekit") :=
  ⟨fun _ => rfl, by decide, by decide, by decide, by decide, by decide,
    by decide⟩

/-- Shape of the polling loop on a script beginning with `n` timeouts: each
timed-out cycle contributes exactly one wait call, one re-sync, one status
log and one sleep, after which the loop continues on the rest of the
script. -/
theorem pollLoop_timeout_prefix (n : Nat) (rest : List WaitOutcome) :
    pollLoop (List.replicate n .timeout ++ rest)
      = (List.replicate n timeoutCycle).flatten ++ pollLoop rest := by
  induction n with
  | zero => simp
  | succ k ih =>
    simp only [List.replicate_succ, List.cons_append, List.flatten_cons]
    rw [pollLoop, ih]
    simp [timeoutCycle]

theorem countP_flatten_replicate {α : Type} (p : α → Bool) (n : Nat)
    (l : List α) :
    ((List.replicate n l).flatten.countP p) = n * l.countP p := by
  induction n with
  | zero => simp
  | succ k ih =>
    simp [List.replicate_succ, ih, Nat.succ_mul, Nat.add_comm]

theorem count_flatten_replicate {α : Type} [BEq α] (a : α) (n : Nat)
    (l : List α) :
    ((List.replicate n l).flatten.count a) = n * l.count a := by
  induction n with
  | zero => simp
  | succ k ih =>
    simp [List.replicate_succ, ih, Nat.succ_mul, Nat.add_comm]

/-! ### Claims C2, C3 -/

/-- C2: against a backend stub whose bounded-wait call raises `FlyteTimeout`
exactly `n` times and then returns a completed execution with no error, the
monitor performs exactly `n` explicit re-synchronizations and exactly `n`
sleeps — every sleep for `timeoutDurationSeconds`, the same bound as the
wait timeout — before finishing with success; since `n` is arbitrary, the
loop has no upper bound on its number of iterations. -/
theorem C2_polling_resyncs_and_sleeps (n : Nat) :
    pollLoop (List.replicate n .timeout ++ [.completed none])
        = (List.replicate n timeoutCycle).flatten ++
          [.waitCall timeoutDurationSeconds, .logCompleted, .success] ∧
    (pollLoop (List.replicate n .timeout ++ [.completed none])).count .resync
        = n ∧
    (pollLoop (List.replicate n .timeout ++ [.completed none])).countP
        PollEvent.isSleep = n ∧
    (pollLoop (List.replicate n .timeout ++ [.completed none])).count
        (.sleep timeoutDurationSeconds) = n ∧
    (pollLoop (List.replicate n .timeout ++ [.completed none])).countP
        PollEvent.isExit = 0 ∧
    (pollLoop (List.replicate n .timeout ++ [.completed none])).getLast?
        = some .success := by
  have hshape := pollLoop_timeout_prefix n [.completed none]
  rw [hshape]
  refine ⟨rfl, ?_, ?_, ?_, ?_, ?_⟩
  · rw [List.count_append, count_flatten_replicate]
    simp [timeoutCycle, pollLoop, List.count_cons]
  · rw [List.countP_append, countP_flatten_replicate]
    simp [timeoutCycle, pollLoop, List.countP_cons, PollEvent.isSleep]
  · rw [List.count_append, count_flatten_replicate]
    simp [timeoutCycle, pollLoop, List.count_cons]
  · rw [List.countP_append, countP_flatten_replicate]
    simp [timeoutCycle, pollLoop, List.countP_cons, PollEvent.isExit]
  · rw [List.getLast?_append]
    rfl

/-- C3: whenever the bounded-wait call returns a completed execution carrying
a non-null error, the monitor logs the completion and the error and exits
the process with status 1, with no further polling, re-synchronization,
sleeping, or retry — the remainder of the stub script is never consulted. -/
theorem C3_error_exits_nonzero (e : String) (rest : List WaitOutcome) :
    pollLoop (.completed (some e) :: rest)
      = [.waitCall timeoutDurationSeconds, .logCompleted, .logError e,
         .exitProcess 1] :=
  rfl

/-! ### Claims C1, C4, C9 -/

theorem terminationTryBlock_count_terminate (b r : Bool) :
    (terminationTryBlock b r).count .terminateRequest = if b then 1 else 0 := by
  cases b <;> cases r <;> rfl

theorem terminationTryBlock_count_exit (b r : Bool) :
    (terminationTryBlock b r).count .exitProcess = 0 := by
  cases b <;> cases r <;> rfl

theorem terminationTryBlock_count_logerr (b r : Bool) :
    (terminationTryBlock b r).count .logTerminateError
      = if b && r then 1 else 0 := by
  cases b <;> cases r <;> rfl

/-- C1: for every interrupted monitored execution, the handler issues exactly
one terminate request if and only if the confirmation response available
within the 60-second bound is affirmative (`"y"`/`"yes"` after
strip/lowercase) AND the phase re-synchronized after the confirmation wait
is still actively running; in every other case — no response within the
bound (the default is "do not terminate"), a negative response, or a
re-synced phase that is already terminal — zero terminate calls occur. -/
theorem C1_terminate_iff_affirmative_and_running (env : InterruptEnv) :
    (handleKeyboardInterrupt env).count .terminateRequest =
      if confirmationResponse env.responseArrival ∈ affirmativeResponses ∧
          env.resyncedPhase = .running
      then 1 else 0 := by
  unfold handleKeyboardInterrupt
  cases hb : decide
      (confirmationResponse env.responseArrival ∈ affirmativeResponses)
  · have hr := of_decide_eq_false hb
    by_cases hp : env.resyncedPhase = .running <;>
      cases env.hadPriorSync <;>
        simp [hp, hr, terminationTryBlock_count_terminate,
          List.count_append, List.count_cons]
  · have hr := of_decide_eq_true hb
    by_cases hp : env.resyncedPhase = .running <;>
      cases env.hadPriorSync <;>
        simp [hp, hr, terminationTryBlock_count_terminate,
          List.count_append, List.count_cons]

/-- C4: for every interrupted run, the handler always reaches `sys.exit()`
(exactly one exit event, and it is the final event) regardless of which
branch was taken — terminated, abandoned, confirmation timed out, or
already terminal — and a failure raised by the terminate request is caught
and logged (exactly one termination-error log, exactly when an affirmative
confirmation met a running phase and the terminate call raised) without
crashing the process or preventing the exit. -/
theorem C4_interrupt_always_exits (env : InterruptEnv) :
    (handleKeyboardInterrupt env).getLast? = some .exitProcess ∧
    (handleKeyboardInterrupt env).count .exitProcess = 1 ∧
    (handleKeyboardInterrupt env).count .logTerminateError =
      (if confirmationResponse env.responseArrival ∈ affirmativeResponses ∧
          env.resyncedPhase = .running ∧ env.terminateRaises = true
       then 1 else 0) := by
  refine ⟨?_, ?_, ?_⟩
  · unfold handleKeyboardInterrupt
    rw [List.getLast?_append]
    rfl
  · unfold handleKeyboardInterrupt
    cases env.hadPriorSync <;>
      by_cases hp : env.resyncedPhase = .running <;>
        simp [hp, terminationTryBlock_count_exit,
          List.count_append, List.count_cons]
  · unfold handleKeyboardInterrupt
    cases hb : decide
        (confirmationResponse env.responseArrival ∈ affirmativeResponses)
    · have hr := of_decide_eq_false hb
      by_cases hp : env.resyncedPhase = .running <;>
        cases env.hadPriorSync <;> cases henv : env.terminateRaises <;>
          simp [hp, hr, henv, terminationTryBlock_count_logerr,
            List.count_append, List.count_cons]
    · have hr := of_decide_eq_true hb
      by_cases hp : env.resyncedPhase = .running <;>
        cases env.hadPriorSync <;> cases henv : env.terminateRaises <;>
          simp [hp, hr, henv, terminationTryBlock_count_logerr,
            List.count_append, List.count_cons]

/-- C9: after an interrupt, the terminate request is issued only when the
freshly re-synchronized phase is exactly `RUNNING`; for every re-synced
phase different from `RUNNING` — including non-terminal phases such as
`QUEUED` or `ABORTING` — no terminate call is made even when an affirmative
confirmation arrived within the bound, and the phase is reported through
the already-in-terminal-state branch. -/
theorem C9_no_terminate_unless_running (env : InterruptEnv)
    (h : env.resyncedPhase ≠ .running) :
    (handleKeyboardInterrupt env).count .terminateRequest = 0 ∧
    .logAlreadyTerminal env.resyncedPhase ∈ handleKeyboardInterrupt env := by
  constructor
  · unfold handleKeyboardInterrupt
    cases env.hadPriorSync <;>
      simp [h, List.count_append, List.count_cons]
  · unfold handleKeyboardInterrupt
    cases env.hadPriorSync <;> simp [h]

/-- Witness for C9: the phase `QUEUED` is non-terminal and distinct from
`RUNNING`, the response `"y"` arriving after 5 seconds is affirmative and
within the bound, and still the handler issues zero terminate requests and
reports the phase through the already-in-terminal-state branch. -/
theorem C9_no_terminate_unless_running_witness :
    WorkflowExecutionPhase.queued.isTerminal = false ∧
    confirmationResponse (some (5, "y")) ∈ affirmativeResponses ∧
    (InterruptEnv.mk true (some (5, "y")) .queued false).resyncedPhase
        ≠ .running ∧
    ((handleKeyboardInterrupt
        (InterruptEnv.mk true (some (5, "y")) .queued false)).count
          .terminateRequest = 0 ∧
      .logAlreadyTerminal
          (InterruptEnv.mk true (some (5, "y")) .queued false).resyncedPhase
        ∈ handleKeyboardInterrupt
            (InterruptEnv.mk true (some (5, "y")) .queued false)) :=
  ⟨by decide, by decide, by decide,
    C9_no_terminate_unless_running
      (InterruptEnv.mk true (some (5, "y")) .queued false) (by decide)⟩

/-! ### Claims C7, C8 -/

/-- C7: for every execution context whose mode is outside
`{local, dev, prod}`, `execute_workflow` logs an invalid-mode error and
exits the process with status 1, and no registration, submission,
fast-package upload, or monitor invocation is attempted. -/
theorem C7_invalid_mode_exits (ctx : ExecutionContext)
    (inputs : List (String × String))
    (h : ctx.mode ∉ (["local", "dev", "prod"] : List String)) :
    execute_workflow ctx inputs
        = [.printConfig, .remoteInit ctx.project ctx.domain,
           .imageConfigResolve (ctx.image ++ ":" ++ ctx.tag),
           .logErrorInvalidMode ctx.mode, .exitProcess 1] ∧
    (execute_workflow ctx inputs).countP ExecEvent.isRegister = 0 ∧
    (execute_workflow ctx inputs).countP ExecEvent.isSubmit = 0 ∧
    (execute_workflow ctx inputs).countP ExecEvent.isFastPackage = 0 ∧
    (execute_workflow ctx inputs).countP ExecEvent.isMonitor = 0 ∧
    .logErrorInvalidMode ctx.mode ∈ execute_workflow ctx inputs ∧
    (execute_workflow ctx inputs).getLast? = some (.exitProcess 1) := by
  have h1 : ctx.mode ≠ "local" := fun hc => h (by rw [hc]; simp)
  have h2 : ctx.mode ≠ "dev" := fun hc => h (by rw [hc]; simp)
  have h3 : ctx.mode ≠ "prod" := fun hc => h (by rw [hc]; simp)
  have hsh : execute_workflow ctx inputs
      = [.printConfig, .remoteInit ctx.project ctx.domain,
         .imageConfigResolve (ctx.image ++ ":" ++ ctx.tag),
         .logErrorInvalidMode ctx.mode, .exitProcess 1] := by
    unfold execute_workflow
    rw [if_neg h1, if_neg h2, if_neg h3]
  rw [hsh]
  refine ⟨rfl, ?_, ?_, ?_, ?_, by simp, rfl⟩ <;>
    simp [List.countP_cons, ExecEvent.isRegister, ExecEvent.isSubmit,
      ExecEvent.isFastPackage, ExecEvent.isMonitor]

/-- Witness for C7: a context whose mode is `"staging"` is outside the valid
set, and `execute_workflow` on it ends in an exit with status 1 with no
registration, submission, fast-package, or monitoring event. -/
theorem C7_invalid_mode_exits_witness :
    (({ mode := "staging" } : ExecutionContext).mode
        ∉ (["local", "dev", "prod"] : List String)) ∧
    (execute_workflow { mode := "staging" } []
        = [.printConfig,
           .remoteInit ({ mode := "staging" } : ExecutionContext).project
             ({ mode := "staging" } : ExecutionContext).domain,
           .imageConfigResolve
             (({ mode := "staging" } : ExecutionContext).image ++ ":" ++
               ({ mode := "staging" } : ExecutionContext).tag),
           .logErrorInvalidMode
             ({ mode := "staging" } : ExecutionContext).mode,
           .exitProcess 1] ∧
      (execute_workflow { mode := "staging" } []).countP
          ExecEvent.isRegister = 0 ∧
      (execute_workflow { mode := "staging" } []).countP
          ExecEvent.isSubmit = 0 ∧
      (execute_workflow { mode := "staging" } []).countP
          ExecEvent.isFastPackage = 0 ∧
      (execute_workflow { mode := "staging" } []).countP
          ExecEvent.isMonitor = 0 ∧
      .logErrorInvalidMode ({ mode := "staging" } : ExecutionContext).mode
          ∈ execute_workflow { mode := "staging" } [] ∧
      (execute_workflow { mode := "staging" } []).getLast?
          = some (.exitProcess 1)) :=
  ⟨by decide, C7_invalid_mode_exits { mode := "staging" } [] (by decide)⟩

/-- C8: for every execution context with mode `local`, `execute_workflow`
invokes the entity directly in-process with the configured inputs and
returns after logging the output: the trace is exactly the config print,
the in-process invocation, and the output log — no remote client is
constructed, no registration, submission or fast-package occurs, and the
completion monitor is never invoked. -/
theorem C8_local_mode_in_process (ctx : ExecutionContext)
    (inputs : List (String × String)) (h : ctx.mode = "local") :
    execute_workflow ctx inputs
        = [.printConfig, .localInvoke inputs, .logOutput] ∧
    (execute_workflow ctx inputs).countP ExecEvent.isRemoteInit = 0 ∧
    (execute_workflow ctx inputs).countP ExecEvent.isRegister = 0 ∧
    (execute_workflow ctx inputs).countP ExecEvent.isSubmit = 0 ∧
    (execute_workflow ctx inputs).countP ExecEvent.isFastPackage = 0 ∧
    (execute_workflow ctx inputs).countP ExecEvent.isMonitor = 0 ∧
    .localInvoke inputs ∈ execute_workflow ctx inputs := by
  have hsh : execute_workflow ctx inputs
      = [.printConfig, .localInvoke inputs, .logOutput] := by
    unfold execute_workflow
    rw [if_pos h]
  rw [hsh]
  refine ⟨rfl, ?_, ?_, ?_, ?_, ?_, by simp⟩ <;>
    simp [List.countP_cons, ExecEvent.isRemoteInit, ExecEvent.isRegister,
      ExecEvent.isSubmit, ExecEvent.isFastPackage, ExecEvent.isMonitor]

/-- Witness for C8: the local context assembled by `main` for the identity
`flytezen`/`main`/`16323b3` has mode `local`, and running `execute_workflow`
on it performs exactly the in-process invocation trace. -/
theorem C8_local_mode_in_process_witness :
    (localExecutionContext ⟨"flytezen", "main", "16323b3"⟩ "a8x").mode
        = "local" ∧
    (execute_workflow
        (localExecutionContext ⟨"flytezen", "main", "16323b3"⟩ "a8x")
        [("logistic_regression", "default")]
        = [.printConfig,
           .localInvoke [("logistic_regression", "default")], .logOutput] ∧
      (execute_workflow
          (localExecutionContext ⟨"flytezen", "main", "16323b3"⟩ "a8x")
          [("logistic_regression", "default")]).countP
            ExecEvent.isRemoteInit = 0 ∧
      (execute_workflow
          (localExecutionContext ⟨"flytezen", "main", "16323b3"⟩ "a8x")
          [("logistic_regression", "default")]).countP
            ExecEvent.isRegister = 0 ∧
      (execute_workflow
          (localExecutionContext ⟨"flytezen", "main", "16323b3"⟩ "a8x")
          [("logistic_regression", "default")]).countP
            ExecEvent.isSubmit = 0 ∧
      (execute_workflow
          (localExecutionContext ⟨"flytezen", "main", "16323b3"⟩ "a8x")
          [("logistic_regression", "default")]).countP
            ExecEvent.isFastPackage = 0 ∧
      (execute_workflow
          (localExecutionContext ⟨"flytezen", "main", "16323b3"⟩ "a8x")
          [("logistic_regression", "default")]).countP
            ExecEvent.isMonitor = 0 ∧
      .localInvoke [("logistic_regression", "default")]
          ∈ execute_workflow
              (localExecutionContext ⟨"flytezen", "main", "16323b3"⟩ "a8x")
              [("logistic_regression", "default")]) :=
  ⟨by decide,
    C8_local_mode_in_process
      (localExecutionContext ⟨"flytezen", "main", "16323b3"⟩ "a8x")
      [("logistic_regression", "default")] (by decide)⟩

end Flytezen
